import Mathlib

set_option autoImplicit false

/-!
Shallow embedding of the event-processing core of `sentry-kubernetes`
(src/sentry_event.rs and src/processor.rs).

Conventions of the embedding:
* Rust `Option<T>` becomes `Option T`; `String` becomes `String`.
* Timestamps (`SystemTime` / k8s `Time`) become `Option Int` (an abstract
  instant; only presence and order matter to the code under study).
* `BTreeMap<String, String>` label maps become association lists
  `List (String × String)`; only the value stored matters to the code.
* A Rust function that can panic is embedded as an `Option`-returning
  function, `none` marking the panicking input.
* The two Kubernetes API lookups (`pod_api.get`, `nodes_api.get`) are
  oracle parameters `String → Option Pod` / `String → Option Node`;
  `none` models `Err(_)` (not-found or transient failure).
-/

/-- `sentry::Level` (sentry-types), the five severity levels. -/
inductive Level where
  | debug
  | info
  | warning
  | error
  | fatal
deriving DecidableEq

/-- `impl FromStr for Level` from sentry-types: the only parseable severity
names are "debug", "info"/"log", "warning", "error", "fatal"/"critical";
anything else is a parse error (`none`). -/
def Level.fromStr : String → Option Level
  | "debug" => some .debug
  | "info" => some .info
  | "log" => some .info
  | "warning" => some .warning
  | "error" => some .error
  | "fatal" => some .fatal
  | "critical" => some .fatal
  | _ => none

/-- `impl Display for Level` from sentry-types: the lowercase display form,
the value of `level.to_string()` in the source. -/
def Level.toDisplay : Level → String
  | .debug => "debug"
  | .info => "info"
  | .warning => "warning"
  | .error => "error"
  | .fatal => "fatal"

/-- `k8s_openapi ObjectReference` (the fields the source reads). -/
structure ObjectReference where
  kind : Option String := none
  name : Option String := none
  namespace' : Option String := none
deriving DecidableEq

/-- `k8s_openapi ObjectMeta` (the fields the source reads). -/
structure ObjectMeta where
  name : Option String := none
  namespace' : Option String := none
  creation_timestamp : Option Int := none
  labels : Option (List (String × String)) := none
deriving DecidableEq

/-- `k8s_openapi EventSource`. -/
structure EventSource where
  component : Option String := none
  host : Option String := none
deriving DecidableEq

/-- `k8s_openapi::api::core::v1::Event` (the fields the source reads). -/
structure Event where
  involved_object : ObjectReference := {}
  message : Option String := none
  metadata : ObjectMeta := {}
  reason : Option String := none
  source : Option EventSource := none
  type_ : Option String := none
deriving DecidableEq

/-- `SentryEvent` as declared in src/sentry_event.rs (`source_host` is a
plain `String`, the "n/a" sentinel standing for an absent host). -/
structure SentryEvent where
  type_ : String := ""
  level : Level := .info
  component : String := ""
  source_host : String := "n/a"
  reason : String := ""
  metadata : ObjectMeta := {}
  namespace' : String := "default"
  kind : Option String := none
  name : String := ""
  message : Option String := none
  creation_timestamp : Option Int := none
deriving DecidableEq

/-- Rust `str::to_lowercase` as applied to event-kind strings (ASCII):
lowercase every character.  (Structurally recursive counterpart of
`String.toLower`, so that concrete inputs evaluate in proofs.) -/
def strToLower (s : String) : String := ⟨s.data.map Char.toLower⟩

/-- `impl From<Event> for SentryEvent` (src/sentry_event.rs lines 70-107).
The source calls `Level::from_str(&level).unwrap()`: when the lowercased
kind (with "normal" mapped to "info") is not a parseable severity name the
`unwrap` panics, crashing the caller.  The embedding returns `none` on
exactly those inputs. -/
def SentryEvent.fromEvent (value : Event) : Option SentryEvent :=
  let meta := value.metadata
  let ns :=
    match value.involved_object.namespace' with
    | some n => n
    | none =>
      match meta.namespace' with
      | some n => n
      | none => "default"
  let creation_timestamp := meta.creation_timestamp
  let event_type := strToLower (value.type_.getD "")
  let level := if event_type = "normal" then "info" else event_type
  match Level.fromStr level with
  | none => none
  | some lv =>
    some {
      type_ := event_type
      level := lv
      component := (value.source.bind EventSource.component).getD ""
      source_host := (value.source.bind EventSource.host).getD "n/a"
      reason := value.reason.getD ""
      metadata := meta
      namespace' := ns
      kind := value.involved_object.kind
      name := (value.involved_object.name).getD ""
      message := value.message
      creation_timestamp := creation_timestamp
    }

/-- The fingerprint sequence built by `impl From<&SentryEvent> for v7::Event`
(src/sentry_event.rs lines 109-158): pushes of the non-empty fields, in
source order. -/
def SentryEvent.fingerprint (value : SentryEvent) : List String :=
  let fp : List String := []
  let fp := if value.reason ≠ "" then fp ++ [value.reason] else fp
  let fp := if value.namespace' ≠ "" then fp ++ [value.namespace'] else fp
  let fp := if value.name ≠ "" then fp ++ [value.name] else fp
  let fp :=
    match value.kind with
    | some kind => if kind ≠ "" then fp ++ [kind] else fp
    | none => fp
  fp

/-- Follows the spec's words for comparison: "a fingerprint sequence built
from non-empty reason, namespace, name, kind in that order". -/
def fingerprintSpec (value : SentryEvent) : List String :=
  ([value.reason, value.namespace', value.name] ++ value.kind.toList).filter
    (fun s => decide (s ≠ ""))

/-- Follows the spec's words for comparison: namespace "defaults to
"default" if neither the involved object nor metadata specify one". -/
def namespaceSpec (value : Event) : String :=
  match value.involved_object.namespace' with
  | some n => n
  | none =>
    match value.metadata.namespace' with
    | some n => n
    | none => "default"

/-- `k8s_openapi PodSpec` (only `node_name` is read). -/
structure PodSpec where
  node_name : Option String := none
deriving DecidableEq

/-- `k8s_openapi Pod` (only `spec` is read). -/
structure Pod where
  spec : Option PodSpec := none
deriving DecidableEq

/-- `k8s_openapi Node` (only `metadata.labels` is read). -/
structure Node where
  metadata : ObjectMeta := {}
deriving DecidableEq

/-- Modelled from the spec: src/processor.rs compiles against a later
revision of `SentryEvent` (the spec's CanonicalEvent) that is not under
src/ — there `source_host` is an `Option<String>` (`hostname.is_none()` at
processor.rs line 113, `none` standing for the absent-or-"n/a"-sentinel
host) and a `node_labels` map exists (written at line 123).  The fields and
their types follow processor.rs's accesses and the spec's CanonicalEvent. -/
structure PSentryEvent where
  level : Level := .info
  component : String := ""
  source_host : Option String := none
  node_labels : List (String × String) := []
  reason : String := ""
  namespace' : String := "default"
  kind : Option String := none
  name : String := ""
  message : Option String := none
  creation_timestamp : Option Int := none
deriving DecidableEq

/-- Which of the four exclusion filters fired (the four `debug!` messages
and early returns of processor.rs lines 127-147, in source order). -/
inductive FilterRule where
  | excludedComponent
  | excludedReason
  | excludedNamespace
  | notMonitored
deriving DecidableEq

/-- `sentry::Breadcrumb` as built at processor.rs lines 163-177.  `data` is
the inserted key/value pairs; `timestamp := none` models the field being
left at `Breadcrumb::default()` (the source only overwrites it when
`creation_timestamp` is present); the remaining Breadcrumb fields keep
their defaults and are not modelled. -/
structure Breadcrumb where
  data : List (String × String) := []
  level : Level := .info
  message : Option String := none
  timestamp : Option Int := none
deriving DecidableEq

/-- The observable outcome of `Processor::process` for one event:
which exclusion filter (if any) caused the early return, the event handed
to the `sender` closure (if any), and the breadcrumb recorded (if any). -/
structure ProcResult where
  suppressed : Option FilterRule := none
  sent : Option PSentryEvent := none
  trail : Option Breadcrumb := none
deriving DecidableEq

/-- The `Processor` configuration (src/processor.rs lines 8-18); the
`sender` closure is modelled by `ProcResult.sent` and the two API handles
by oracle parameters. -/
structure Processor where
  event_namespaces : List String := []
  exclude_components : List String := []
  exclude_reasons : List String := []
  exclude_namespaces : List String := []
  event_levels : List String := []
deriving DecidableEq

/-- The enrichment stage of `Processor::process` (processor.rs lines
112-125): resolve a hostname via the pod API when none is known and the
involved object is a Pod, then fetch that node's labels.  Returns the
(possibly label-enriched) event together with the local `hostname`
variable as it stands at line 125. -/
def Processor.enrich (pod_api : String → Option Pod)
    (nodes_api : String → Option Node) (sentry_event : PSentryEvent) :
    PSentryEvent × Option String :=
  let hostname := sentry_event.source_host
  let hostname :=
    if hostname.isNone then
      if sentry_event.kind = some "Pod" then
        match pod_api sentry_event.name with
        | some pod => pod.spec.bind PodSpec.node_name
        | none => hostname
      else hostname
    else hostname
  let sentry_event :=
    match hostname with
    | some h =>
      match nodes_api h with
      | some node => { sentry_event with node_labels := node.metadata.labels.getD [] }
      | none => sentry_event
    | none => sentry_event
  (sentry_event, hostname)

/-- The filter / send / breadcrumb stage of `Processor::process`
(processor.rs lines 127-179), taking the enriched event and the `hostname`
local. -/
def Processor.filterAndSend (self : Processor) (sentry_event : PSentryEvent)
    (hostname : Option String) : ProcResult :=
  if self.exclude_components.contains sentry_event.component then
    { suppressed := some .excludedComponent }
  else if self.exclude_reasons.contains sentry_event.reason then
    { suppressed := some .excludedReason }
  else if self.exclude_namespaces.contains sentry_event.namespace' then
    { suppressed := some .excludedNamespace }
  else if !self.event_namespaces.isEmpty
      && !self.event_namespaces.contains sentry_event.namespace' then
    { suppressed := some .notMonitored }
  else
    let sent :=
      if (self.event_levels.any fun e => e == Level.toDisplay sentry_event.level)
          || sentry_event.level == Level.error then
        some { sentry_event with source_host := hostname }
      else none
    { sent := sent
      trail := some {
        data := [("name", sentry_event.name), ("namespace", sentry_event.namespace')]
        level := sentry_event.level
        message := sentry_event.message
        timestamp := sentry_event.creation_timestamp } }

/-- `Processor::process` (processor.rs lines 110-181): enrichment followed
by the filter / send / breadcrumb stage. -/
def Processor.process (self : Processor) (pod_api : String → Option Pod)
    (nodes_api : String → Option Node) (event : PSentryEvent) : ProcResult :=
  let (sentry_event, hostname) := Processor.enrich pod_api nodes_api event
  self.filterAndSend sentry_event hostname

/-- Processing a stream of events: `Processor::process` holds no mutable
state, so a sequence is processed element-wise. -/
def Processor.processSeq (self : Processor) (pod_api : String → Option Pod)
    (nodes_api : String → Option Node) (events : List PSentryEvent) :
    List ProcResult :=
  events.map (self.process pod_api nodes_api)

/-- The pipeline with the enrichment stage (processor.rs lines 112-125)
removed: the filter stage runs directly on the normalized event, with the
`hostname` local equal to the event's own `source_host`. -/
def Processor.processNoEnrich (self : Processor) (event : PSentryEvent) :
    ProcResult :=
  self.filterAndSend event event.source_host

/-- Follows the spec's words for comparison: `shouldSuppress(event,
config)`, "evaluated in this exact, fixed order (first true wins,
short-circuit)": excluded component, excluded reason, excluded namespace,
then non-empty include-list not containing the namespace. -/
def shouldSuppressSpec (config : Processor) (event : PSentryEvent) :
    Option FilterRule :=
  if event.component ∈ config.exclude_components then some .excludedComponent
  else if event.reason ∈ config.exclude_reasons then some .excludedReason
  else if event.namespace' ∈ config.exclude_namespaces then some .excludedNamespace
  else if config.event_namespaces ≠ [] ∧ event.namespace' ∉ config.event_namespaces then
    some .notMonitored
  else none

/-- The value of the `hostname` local at processor.rs line 125, as a
function of the pod-API oracle and the incoming event. -/
def hostOf (pod_api : String → Option Pod) (event : PSentryEvent) :
    Option String :=
  match event.source_host with
  | some h => some h
  | none =>
    if event.kind = some "Pod" then
      match pod_api event.name with
      | some pod => pod.spec.bind PodSpec.node_name
      | none => none
    else none

/-- The node-label map after the enrichment stage, as a function of the
nodes-API oracle, the incoming event and the resolved hostname. -/
def labelsOf (nodes_api : String → Option Node) (event : PSentryEvent)
    (hostname : Option String) : List (String × String) :=
  match hostname with
  | some h =>
    match nodes_api h with
    | some node => node.metadata.labels.getD []
    | none => event.node_labels
  | none => event.node_labels

/-- A raw event whose kind "BogusKind" is not a parseable severity name. -/
def c1Event : Event := { type_ := some "BogusKind" }

/-- The default configuration (EVENT_LEVELS defaults to "warning,error"). -/
def c2cfg : Processor := { event_levels := ["warning", "error"] }

/-- First event of the out-of-order pair: creation time 100. -/
def c2e1 : PSentryEvent :=
  { level := .warning, name := "pod-a", creation_timestamp := some 100 }

/-- Second event of the out-of-order pair: strictly older creation time 50. -/
def c2e2 : PSentryEvent :=
  { level := .warning, name := "pod-b", creation_timestamp := some 50 }

/-- A configuration excluding the component "kubelet". -/
def c3cfg : Processor :=
  { exclude_components := ["kubelet"], event_levels := ["warning", "error"] }

/-- An Error-severity event from the excluded component "kubelet". -/
def c3e : PSentryEvent := { level := .error, component := "kubelet" }

/-- A configuration whose accepted-severity list is only "warning". -/
def c4cfg : Processor := { event_levels := ["warning"] }

/-- An Error-severity event whose label "error" is not in `c4cfg`'s list. -/
def c4e : PSentryEvent := { level := .error }

/-- The claim's fingerprint example event. -/
def c6e : SentryEvent :=
  { reason := "Failed", namespace' := "kube-system", name := "coredns-xyz",
    kind := some "Pod" }

/-- An event whose source host is already known. -/
def c7e1 : PSentryEvent := { source_host := some "node-1" }

/-- A Pod event with no known source host. -/
def c7e2 : PSentryEvent := { kind := some "Pod", name := "pod-a" }

/-- A configuration for the enrichment-failure run. -/
def c7cfg : Processor := { event_levels := ["warning", "error"] }

/-- A configuration for the enrichment-fallback run. -/
def c8cfg : Processor := { event_levels := ["warning"] }

/-- A Warning Pod event with no known source host. -/
def c8e : PSentryEvent :=
  { level := .warning, kind := some "Pod", name := "pod-a" }

/-- A raw event whose involved object carries namespace "kube-system". -/
def c9Event : Event :=
  { type_ := some "Warning",
    involved_object := { namespace' := some "kube-system", name := some "coredns-xyz" } }

/-- The normalization of `c9Event`. -/
def c9se : SentryEvent :=
  { type_ := "warning", level := .warning, component := "", source_host := "n/a",
    reason := "", metadata := {}, namespace' := "kube-system", kind := none,
    name := "coredns-xyz", message := none, creation_timestamp := none }

/-- A raw event whose involved object carries an explicitly empty
namespace string. -/
def c9BadEvent : Event :=
  { type_ := some "Warning", involved_object := { namespace' := some "" } }

/-- A configuration excluding the lowercase component "kubelet", with
accepted severity label "warning". -/
def c10cfg : Processor :=
  { exclude_components := ["kubelet"], event_levels := ["warning"] }

/-- A Warning event whose component is the capitalized "Kubelet". -/
def c10e : PSentryEvent := { component := "Kubelet", level := .warning }

/-- A configuration whose accepted-severity list holds the capitalized
label "Warning", which no severity's lowercase display form equals. -/
def c10cfgB : Processor := { event_levels := ["Warning"] }

theorem Processor.enrich_eq (pod_api : String → Option Pod)
    (nodes_api : String → Option Node) (e : PSentryEvent) :
    Processor.enrich pod_api nodes_api e =
      ({ e with node_labels := labelsOf nodes_api e (hostOf pod_api e) },
        hostOf pod_api e) := by
  obtain ⟨lv, comp, sh, nl, rsn, ns, kd, nm, msg, ct⟩ := e
  unfold Processor.enrich hostOf labelsOf
  cases sh with
  | some h =>
    cases hn : nodes_api h <;> simp [hn]
  | none =>
    by_cases hk : kd = some "Pod"
    · subst hk
      cases hp : pod_api nm with
      | none => simp [hp]
      | some pod =>
        cases hb : pod.spec.bind PodSpec.node_name with
        | none => simp [hp, hb]
        | some h => cases hn : nodes_api h <;> simp [hp, hb, hn]
    · simp [hk]

theorem Processor.process_eq (self : Processor) (pod_api : String → Option Pod)
    (nodes_api : String → Option Node) (e : PSentryEvent) :
    self.process pod_api nodes_api e =
      self.filterAndSend
        { e with node_labels := labelsOf nodes_api e (hostOf pod_api e) }
        (hostOf pod_api e) := by
  unfold Processor.process
  rw [Processor.enrich_eq]

theorem Processor.filterAndSend_suppressed (self : Processor)
    (se : PSentryEvent) (hostname : Option String) :
    (self.filterAndSend se hostname).suppressed = shouldSuppressSpec self se := by
  unfold Processor.filterAndSend shouldSuppressSpec
  by_cases h1 : se.component ∈ self.exclude_components <;>
    by_cases h2 : se.reason ∈ self.exclude_reasons <;>
    by_cases h3 : se.namespace' ∈ self.exclude_namespaces <;>
    by_cases h4 : self.event_namespaces = [] <;>
    by_cases h5 : se.namespace' ∈ self.event_namespaces <;>
    simp [h1, h2, h3, h4, h5, List.elem_iff, List.isEmpty_iff]

theorem Processor.filterAndSend_sent (self : Processor) (se : PSentryEvent)
    (hostname : Option String) :
    (self.filterAndSend se hostname).sent =
      if shouldSuppressSpec self se = none then
        if Level.toDisplay se.level ∈ self.event_levels ∨ se.level = Level.error then
          some { se with source_host := hostname }
        else none
      else none := by
  unfold Processor.filterAndSend shouldSuppressSpec
  by_cases h1 : se.component ∈ self.exclude_components <;>
    by_cases h2 : se.reason ∈ self.exclude_reasons <;>
    by_cases h3 : se.namespace' ∈ self.exclude_namespaces <;>
    by_cases h4 : self.event_namespaces = [] <;>
    by_cases h5 : se.namespace' ∈ self.event_namespaces <;>
    by_cases h6 : Level.toDisplay se.level ∈ self.event_levels <;>
    by_cases h7 : se.level = Level.error <;>
    simp [h1, h2, h3, h4, h5, h6, h7, List.elem_iff, List.isEmpty_iff]

theorem Processor.filterAndSend_trail (self : Processor) (se : PSentryEvent)
    (hostname : Option String) :
    (self.filterAndSend se hostname).trail =
      if shouldSuppressSpec self se = none then
        some { data := [("name", se.name), ("namespace", se.namespace')]
               level := se.level
               message := se.message
               timestamp := se.creation_timestamp }
      else none := by
  unfold Processor.filterAndSend shouldSuppressSpec
  by_cases h1 : se.component ∈ self.exclude_components <;>
    by_cases h2 : se.reason ∈ self.exclude_reasons <;>
    by_cases h3 : se.namespace' ∈ self.exclude_namespaces <;>
    by_cases h4 : self.event_namespaces = [] <;>
    by_cases h5 : se.namespace' ∈ self.event_namespaces <;>
    simp [h1, h2, h3, h4, h5, List.elem_iff, List.isEmpty_iff]

theorem Processor.filterAndSend_ct (self : Processor) (se : PSentryEvent)
    (hostname : Option String) (t : Option Int) :
    ((self.filterAndSend { se with creation_timestamp := t } hostname).suppressed
        = (self.filterAndSend se hostname).suppressed) ∧
    ((self.filterAndSend { se with creation_timestamp := t } hostname).sent.isSome
        = (self.filterAndSend se hostname).sent.isSome) ∧
    ((self.filterAndSend { se with creation_timestamp := t } hostname).trail.isSome
        = (self.filterAndSend se hostname).trail.isSome) := by
  unfold Processor.filterAndSend
  dsimp only
  split_ifs <;> simp

theorem shouldSuppressSpec_cases (self : Processor) (e : PSentryEvent) :
    (shouldSuppressSpec self e = some .excludedComponent ↔
      e.component ∈ self.exclude_components) ∧
    (shouldSuppressSpec self e = some .excludedReason ↔
      (e.component ∉ self.exclude_components ∧ e.reason ∈ self.exclude_reasons)) ∧
    (shouldSuppressSpec self e = some .excludedNamespace ↔
      (e.component ∉ self.exclude_components ∧ e.reason ∉ self.exclude_reasons ∧
        e.namespace' ∈ self.exclude_namespaces)) ∧
    (shouldSuppressSpec self e = some .notMonitored ↔
      (e.component ∉ self.exclude_components ∧ e.reason ∉ self.exclude_reasons ∧
        e.namespace' ∉ self.exclude_namespaces ∧ self.event_namespaces ≠ [] ∧
        e.namespace' ∉ self.event_namespaces)) := by
  unfold shouldSuppressSpec
  by_cases h1 : e.component ∈ self.exclude_components <;>
    by_cases h2 : e.reason ∈ self.exclude_reasons <;>
    by_cases h3 : e.namespace' ∈ self.exclude_namespaces <;>
    by_cases h4 : self.event_namespaces = [] <;>
    by_cases h5 : e.namespace' ∈ self.event_namespaces <;>
    simp [h1, h2, h3, h4, h5]

/-- C1: the claim states that a raw event whose kind (lowercased, with
"normal" mapped to "info") is not parseable as a severity name is dropped,
logged and counted while processing of the stream continues.  The code
instead calls `Level::from_str(&level).unwrap()` (src/sentry_event.rs line
88), which panics on exactly those events and crashes the pipeline; the
embedding returns `none` on the panicking inputs.  This theorem evaluates
normalization at two such inputs: the kind "BogusKind", and an absent kind
(which lowercases to "", also unparseable). -/
theorem c1_malformed_kind_crashes :
    SentryEvent.fromEvent c1Event = none ∧ SentryEvent.fromEvent {} = none :=
  ⟨rfl, rfl⟩

/-- C2 (counterexample): with the default configuration, the concrete
sequence of two Warning events with creation times 100 then 50 — the
second strictly older than the first — has an alert sent for BOTH events.
The pipeline keeps no watermark state, so the strictly-older second event
is not rejected, contradicting the claim that such an event is rejected
with no alert sent, and with it the claimed quantified invariant. -/
theorem c2_out_of_order_event_is_admitted :
    (c2cfg.processSeq (fun _ => none) (fun _ => none) [c2e1, c2e2]).map
        (fun r => r.sent.isSome) = [true, true] ∧
    c2e1.creation_timestamp = some 100 ∧ c2e2.creation_timestamp = some 50 ∧
    (50 : Int) < 100 :=
  ⟨rfl, rfl, rfl, by decide⟩

/-- C2 (amended): the pipeline maintains no arrival-order watermark and no
cross-event state; whether an event is suppressed, alerted, or
trail-recorded is independent of its creationTimestamp, so an event whose
timestamp is strictly less than an earlier event's is admitted exactly as
any other (the original claim's watermark behaviour is refuted by
`c2_out_of_order_event_is_admitted`). -/
theorem c2_admission_ignores_timestamp (self : Processor)
    (pod_api : String → Option Pod) (nodes_api : String → Option Node)
    (e : PSentryEvent) (t : Option Int) :
    ((self.process pod_api nodes_api { e with creation_timestamp := t }).suppressed
        = (self.process pod_api nodes_api e).suppressed) ∧
    ((self.process pod_api nodes_api { e with creation_timestamp := t }).sent.isSome
        = (self.process pod_api nodes_api e).sent.isSome) ∧
    ((self.process pod_api nodes_api { e with creation_timestamp := t }).trail.isSome
        = (self.process pod_api nodes_api e).trail.isSome) := by
  have h := Processor.filterAndSend_ct self
    { e with node_labels := labelsOf nodes_api e (hostOf pod_api e) }
    (hostOf pod_api e) t
  refine ⟨?_, ?_, ?_⟩ <;> rw [Processor.process_eq, Processor.process_eq]
  · exact h.1
  · exact h.2.1
  · exact h.2.2

/-- C3: suppression is decided by the four exclusion tests in the source's
fixed order with short-circuit on the first match (the pipeline's
suppression outcome equals the spec's ordered `shouldSuppress`), and a
suppressed event produces no alert and no trail entry — even when its
severity is Error, since the severity test is behind the early returns. -/
theorem c3_filter_chain (self : Processor) (pod_api : String → Option Pod)
    (nodes_api : String → Option Node) (e : PSentryEvent) :
    (self.process pod_api nodes_api e).suppressed = shouldSuppressSpec self e ∧
    ((self.process pod_api nodes_api e).suppressed ≠ none →
      (self.process pod_api nodes_api e).sent = none ∧
      (self.process pod_api nodes_api e).trail = none) := by
  constructor
  · rw [Processor.process_eq, Processor.filterAndSend_suppressed]
    exact rfl
  · intro hne
    rw [Processor.process_eq, Processor.filterAndSend_suppressed] at hne
    constructor
    · rw [Processor.process_eq, Processor.filterAndSend_sent, if_neg hne]
    · rw [Processor.process_eq, Processor.filterAndSend_trail, if_neg hne]

/-- C3 (witness): with "kubelet" in excludeComponents, an Error-severity
event from component "kubelet" yields no alert and no trail entry. -/
theorem c3_filter_chain_witness :
    (c3cfg.process (fun _ => none) (fun _ => none) c3e).sent = none ∧
    (c3cfg.process (fun _ => none) (fun _ => none) c3e).trail = none ∧
    c3e.level = Level.error := by
  have h := c3_filter_chain c3cfg (fun _ => none) (fun _ => none) c3e
  have hne : (c3cfg.process (fun _ => none) (fun _ => none) c3e).suppressed ≠ none := by
    rw [h.1]; decide
  exact ⟨(h.2 hne).1, (h.2 hne).2, rfl⟩

/-- C4: for every event that passes all four exclusion tests, an alert is
sent if and only if the accepted-severity-label list contains the lowercase
display form of its severity or its severity equals Error (the deliberate
forced-escalation rule); in particular an Error event whose label is
absent from the list is still sent, and a non-Error event with an absent
label is not. -/
theorem c4_severity_gate (self : Processor) (pod_api : String → Option Pod)
    (nodes_api : String → Option Node) (e : PSentryEvent)
    (hpass : (self.process pod_api nodes_api e).suppressed = none) :
    (self.process pod_api nodes_api e).sent ≠ none ↔
      (Level.toDisplay e.level ∈ self.event_levels ∨ e.level = Level.error) := by
  rw [Processor.process_eq, Processor.filterAndSend_suppressed] at hpass
  rw [Processor.process_eq, Processor.filterAndSend_sent, if_pos hpass]
  by_cases hc : Level.toDisplay e.level ∈ self.event_levels ∨ e.level = Level.error
  · rw [if_pos hc]
    simp only [hc, iff_true]
    exact Option.some_ne_none _
  · rw [if_neg hc]
    simp only [hc, iff_false, ne_eq, not_not]

/-- C4 (witness): accepted list `["warning"]`, severity Error: the event
passes the filters, its label "error" is not in the accepted list, and an
alert is nevertheless sent. -/
theorem c4_severity_gate_witness :
    (c4cfg.process (fun _ => none) (fun _ => none) c4e).sent ≠ none ∧
    Level.toDisplay c4e.level ∉ c4cfg.event_levels := by
  have h := c4_severity_gate c4cfg (fun _ => none) (fun _ => none) c4e (by decide)
  exact ⟨h.mpr (Or.inr rfl), by decide⟩

/-- C5: for every event that passes the four exclusion tests a trail entry
(breadcrumb) is recorded — whatever the severity decision — holding
exactly the data pairs name/namespace, the event's level and message, and
its creation timestamp when present (`none` standing for the sink
default); for every event suppressed by an exclusion test, no trail entry
is recorded. -/
theorem c5_trail_entry (self : Processor) (pod_api : String → Option Pod)
    (nodes_api : String → Option Node) (e : PSentryEvent) :
    (self.process pod_api nodes_api e).trail =
      if (self.process pod_api nodes_api e).suppressed = none then
        some { data := [("name", e.name), ("namespace", e.namespace')]
               level := e.level
               message := e.message
               timestamp := e.creation_timestamp }
      else none := by
  rw [Processor.process_eq, Processor.filterAndSend_trail,
    Processor.filterAndSend_suppressed]

/-- C6: the alert's fingerprint is exactly the sequence of those of
[reason, namespace, name, kind] that are non-empty, in that order (the
source's push-if-non-empty chain agrees with the spec's filtered list),
and on the claim's example event it is exactly
["Failed", "kube-system", "coredns-xyz", "Pod"]. -/
theorem c6_fingerprint :
    (∀ v : SentryEvent, v.fingerprint = fingerprintSpec v) ∧
    c6e.fingerprint = ["Failed", "kube-system", "coredns-xyz", "Pod"] := by
  constructor
  · intro v
    obtain ⟨ty, lv, comp, sh, rsn, meta, ns, kd, nm, msg, ct⟩ := v
    unfold SentryEvent.fingerprint fingerprintSpec
    cases kd with
    | none =>
      by_cases h1 : rsn = "" <;> by_cases h2 : ns = "" <;> by_cases h3 : nm = "" <;>
        simp [h1, h2, h3]
    | some k =>
      by_cases h1 : rsn = "" <;> by_cases h2 : ns = "" <;> by_cases h3 : nm = "" <;>
        by_cases h4 : k = "" <;> simp [h1, h2, h3, h4]
  · rfl

/-- C7: the host-resolution step of enrichment is a no-op whenever the
event's source host is already known (the hostname stays as it was and the
pod oracle is never consulted; in the embedding the `Option` source host
models the spec's known/unknown distinction, `none` standing for the
absent-or-"n/a"-sentinel host); when it is unknown, the pod-host lookup is
attempted exactly when the object kind equals "Pod" (the hostname is then
whatever the pod oracle yields, and for any other kind the pod oracle is
again irrelevant); and a failed lookup is swallowed: the hostname stays
unresolved, the event is unchanged, and processing continues to the
filter stage instead of aborting. -/
theorem c7_enrichment_host_resolution (self : Processor)
    (pod_api pod_api' : String → Option Pod) (nodes_api : String → Option Node)
    (e : PSentryEvent) :
    (e.source_host.isSome →
      (Processor.enrich pod_api nodes_api e).2 = e.source_host ∧
      Processor.enrich pod_api nodes_api e = Processor.enrich pod_api' nodes_api e) ∧
    (e.source_host = none → e.kind = some "Pod" →
      (Processor.enrich pod_api nodes_api e).2
        = (pod_api e.name).bind fun p => p.spec.bind PodSpec.node_name) ∧
    (e.source_host = none → e.kind ≠ some "Pod" →
      (Processor.enrich pod_api nodes_api e).2 = none ∧
      Processor.enrich pod_api nodes_api e = Processor.enrich pod_api' nodes_api e) ∧
    (e.source_host = none → pod_api e.name = none →
      Processor.enrich pod_api nodes_api e = (e, none) ∧
      self.process pod_api nodes_api e = self.filterAndSend e none) := by
  refine ⟨?_, ?_, ?_, ?_⟩
  · intro hs
    cases hsh : e.source_host with
    | none => rw [hsh] at hs; cases hs
    | some h =>
      have hh : hostOf pod_api e = some h := by unfold hostOf; rw [hsh]
      have hh' : hostOf pod_api' e = some h := by unfold hostOf; rw [hsh]
      constructor
      · rw [Processor.enrich_eq, hh, hsh]
      · rw [Processor.enrich_eq, Processor.enrich_eq, hh, hh']
  · intro hs hk
    have hh : hostOf pod_api e
        = (pod_api e.name).bind fun p => p.spec.bind PodSpec.node_name := by
      unfold hostOf
      rw [hs, if_pos hk]
      cases pod_api e.name <;> rfl
    rw [Processor.enrich_eq]
    exact hh
  · intro hs hk
    have hh : hostOf pod_api e = none := by unfold hostOf; rw [hs, if_neg hk]
    have hh' : hostOf pod_api' e = none := by unfold hostOf; rw [hs, if_neg hk]
    constructor
    · rw [Processor.enrich_eq, hh]
    · rw [Processor.enrich_eq, Processor.enrich_eq, hh, hh']
  · intro hs hp
    have hh : hostOf pod_api e = none := by
      unfold hostOf
      rw [hs]
      split_ifs with hk
      · rw [hp]
      · rfl
    constructor
    · rw [Processor.enrich_eq, hh]
      exact rfl
    · rw [Processor.process_eq, hh]
      exact rfl

/-- C7 (witness): concrete runs — with a known host "node-1" the hostname
is returned untouched, and with an unknown host, Pod kind and a failing
pod lookup, enrichment returns the event unchanged and processing still
reaches the filter stage. -/
theorem c7_enrichment_host_resolution_witness :
    (Processor.enrich (fun _ => none) (fun _ => none) c7e1).2 = some "node-1" ∧
    Processor.enrich (fun _ => none) (fun _ => none) c7e2 = (c7e2, none) ∧
    c7cfg.process (fun _ => none) (fun _ => none) c7e2
      = c7cfg.filterAndSend c7e2 none := by
  have h1 := (c7_enrichment_host_resolution c7cfg (fun _ => none) (fun _ => none)
    (fun _ => none) c7e1).1 (by decide)
  have h4 := (c7_enrichment_host_resolution c7cfg (fun _ => none) (fun _ => none)
    (fun _ => none) c7e2).2.2.2 rfl rfl
  exact ⟨h1.1.trans rfl, h4.1, h4.2⟩

/-- C8: enrichment writes nothing but the node-label map (the event it
returns differs from its input at most in `node_labels`; the alert's
`source_host` is written later, in the send branch, from the enrichment
hostname), and when both lookups fail the whole processing outcome is
identical to the pipeline with the enrichment stage removed; moreover the
alert event then sent, if any, is the incoming event itself, so every
field of the alert payload — tags, fingerprint, message, culprit, level,
extra, timestamp — matches the non-enriched case. -/
theorem c8_enrichment_frame (self : Processor)
    (pod_api : String → Option Pod) (nodes_api : String → Option Node)
    (e : PSentryEvent)
    (hpod : ∀ s, pod_api s = none) (hnode : ∀ s, nodes_api s = none) :
    (Processor.enrich pod_api nodes_api e).1
      = { e with node_labels := (Processor.enrich pod_api nodes_api e).1.node_labels } ∧
    self.process pod_api nodes_api e = self.processNoEnrich e ∧
    ((self.processNoEnrich e).sent = none ∨ (self.processNoEnrich e).sent = some e) := by
  have hh : hostOf pod_api e = e.source_host := by
    unfold hostOf
    cases hsh : e.source_host with
    | some h => rfl
    | none =>
      split_ifs with hk
      · rw [hpod]
      · rfl
  have hl : ∀ host, labelsOf nodes_api e host = e.node_labels := by
    intro host
    cases host with
    | none => rfl
    | some h =>
      show (match nodes_api h with
        | some node => node.metadata.labels.getD []
        | none => e.node_labels) = e.node_labels
      rw [hnode]
  refine ⟨?_, ?_, ?_⟩
  · rw [Processor.enrich_eq]
  · rw [Processor.process_eq, hh, hl]
    exact rfl
  · unfold Processor.processNoEnrich
    rw [Processor.filterAndSend_sent]
    split_ifs
    · exact Or.inr rfl
    · exact Or.inl rfl
    · exact Or.inl rfl

/-- C8 (witness): with both oracles failing, the concrete Warning Pod
event is processed exactly as without enrichment, and the alert sent is
the incoming event itself. -/
theorem c8_enrichment_frame_witness :
    c8cfg.process (fun _ => none) (fun _ => none) c8e = c8cfg.processNoEnrich c8e ∧
    (c8cfg.processNoEnrich c8e).sent = some c8e := by
  have h := c8_enrichment_frame c8cfg (fun _ => none) (fun _ => none) c8e
    (fun _ => rfl) (fun _ => rfl)
  refine ⟨h.2.1, ?_⟩
  rcases h.2.2 with h0 | h1
  · exact absurd h0 (by decide)
  · exact h1

/-- C9 (counterexample): the raw event `c9BadEvent`, whose involved object
carries an explicitly empty namespace string, normalizes to a canonical
event whose namespace is "" — refuting the claim's consequence that the
canonical event's namespace field is never empty. -/
theorem c9_empty_namespace_possible :
    (SentryEvent.fromEvent c9BadEvent).map SentryEvent.namespace' = some "" := rfl

/-- C9 (amended): the normalized namespace follows the fallback chain —
the involved object's namespace when present, else the metadata namespace
when present, else the literal "default" — and is consequently non-empty
whenever every namespace field that is present is non-empty (in
particular when both are absent); an explicitly empty namespace string is,
however, propagated as-is (`c9_empty_namespace_possible`), so "never
empty" does not hold unconditionally. -/
theorem SentryEvent.fromEvent_eq (v : Event) :
    SentryEvent.fromEvent v =
      (Level.fromStr (if strToLower (v.type_.getD "") = "normal" then "info"
          else strToLower (v.type_.getD ""))).map fun lv =>
        { type_ := strToLower (v.type_.getD ""), level := lv,
          component := (v.source.bind EventSource.component).getD "",
          source_host := (v.source.bind EventSource.host).getD "n/a",
          reason := v.reason.getD "", metadata := v.metadata,
          namespace' := namespaceSpec v, kind := v.involved_object.kind,
          name := v.involved_object.name.getD "", message := v.message,
          creation_timestamp := v.metadata.creation_timestamp } := by
  unfold SentryEvent.fromEvent namespaceSpec
  dsimp only
  cases Level.fromStr (if strToLower (v.type_.getD "") = "normal" then "info"
    else strToLower (v.type_.getD "")) <;> rfl

theorem c9_namespace_fallback (v : Event) (se : SentryEvent)
    (h : SentryEvent.fromEvent v = some se) :
    se.namespace' = namespaceSpec v ∧
    (v.involved_object.namespace' ≠ some "" → v.metadata.namespace' ≠ some "" →
      se.namespace' ≠ "") := by
  rw [SentryEvent.fromEvent_eq] at h
  cases hlv : Level.fromStr (if strToLower (v.type_.getD "") = "normal" then "info"
      else strToLower (v.type_.getD "")) with
  | none => rw [hlv] at h; cases h
  | some lv =>
    rw [hlv] at h
    injection h with h2
    subst h2
    constructor
    · rfl
    · intro hio hm
      show (namespaceSpec v) ≠ ""
      unfold namespaceSpec
      cases hio' : v.involved_object.namespace' with
      | some n =>
        rw [hio'] at hio
        intro h0
        exact hio (congrArg some h0)
      | none =>
        cases hm' : v.metadata.namespace' with
        | some m =>
          rw [hm'] at hm
          intro h0
          exact hm (congrArg some h0)
        | none => decide

/-- C9 (witness): `c9Event` normalizes to `c9se`, whose namespace follows
the fallback chain (here "kube-system", from the involved object) and is
non-empty. -/
theorem c9_namespace_fallback_witness :
    c9se.namespace' = namespaceSpec c9Event ∧ c9se.namespace' ≠ "" := by
  have h := c9_namespace_fallback c9Event c9se rfl
  exact ⟨h.1, h.2 (by decide) (by decide)⟩

/-- C10: every exclusion test and the accepted-severity test compare the
event's field against the config list entries by exact, case-sensitive,
whole-string equality — plain list membership of the literal field value,
first match in the fixed order, with the severity compared only through
its lowercase display form; concretely, component "Kubelet" is not
suppressed by the entry "kubelet" (and the event is sent, its label
"warning" being accepted), while under the capitalized accepted label
"Warning" the same Warning event is not sent. -/
theorem c10_exact_string_matching :
    (∀ (self : Processor) (pod_api : String → Option Pod)
        (nodes_api : String → Option Node) (e : PSentryEvent),
      ((self.process pod_api nodes_api e).suppressed = some .excludedComponent ↔
        e.component ∈ self.exclude_components) ∧
      ((self.process pod_api nodes_api e).suppressed = some .excludedReason ↔
        (e.component ∉ self.exclude_components ∧ e.reason ∈ self.exclude_reasons)) ∧
      ((self.process pod_api nodes_api e).suppressed = some .excludedNamespace ↔
        (e.component ∉ self.exclude_components ∧ e.reason ∉ self.exclude_reasons ∧
          e.namespace' ∈ self.exclude_namespaces)) ∧
      ((self.process pod_api nodes_api e).suppressed = some .notMonitored ↔
        (e.component ∉ self.exclude_components ∧ e.reason ∉ self.exclude_reasons ∧
          e.namespace' ∉ self.exclude_namespaces ∧ self.event_namespaces ≠ [] ∧
          e.namespace' ∉ self.event_namespaces)) ∧
      ((self.process pod_api nodes_api e).sent ≠ none ↔
        ((self.process pod_api nodes_api e).suppressed = none ∧
          (Level.toDisplay e.level ∈ self.event_levels ∨ e.level = Level.error)))) ∧
    (c10cfg.process (fun _ => none) (fun _ => none) c10e).suppressed = none ∧
    (c10cfg.process (fun _ => none) (fun _ => none) c10e).sent ≠ none ∧
    (c10cfgB.process (fun _ => none) (fun _ => none) c10e).suppressed = none ∧
    (c10cfgB.process (fun _ => none) (fun _ => none) c10e).sent = none := by
  refine ⟨fun self pod_api nodes_api e => ?_, by decide, by decide, by decide, by decide⟩
  rw [Processor.process_eq, Processor.filterAndSend_suppressed,
    Processor.filterAndSend_sent]
  have hAe : shouldSuppressSpec self
      { e with node_labels := labelsOf nodes_api e (hostOf pod_api e) }
      = shouldSuppressSpec self e := rfl
  rw [hAe]
  dsimp only
  have hc := shouldSuppressSpec_cases self e
  refine ⟨hc.1, hc.2.1, hc.2.2.1, hc.2.2.2, ?_⟩
  by_cases hS : shouldSuppressSpec self e = none
  · rw [if_pos hS]
    by_cases hC : Level.toDisplay e.level ∈ self.event_levels ∨ e.level = Level.error
    · rw [if_pos hC]
      simp only [hS, hC, and_self, iff_true]
      exact Option.some_ne_none _
    · rw [if_neg hC]
      simp only [hS, hC, and_false, iff_false, ne_eq, not_not]
  · rw [if_neg hS]
    simp only [hS, false_and, iff_false, ne_eq, not_not]
